import Mathlib

/-!
Shallow embedding of the registration-form validation logic of
`src/App.tsx` (react-hook-form + zod) and of its two file-input change
handlers.

Modelling conventions:
* A JavaScript `File` is a record of its `name`, MIME `type` and `size`
  in bytes (`JFile`).
* JavaScript numbers are modelled as rationals (`ℚ`); timestamps
  (`Date.getTime()` / `Date.now()` values) as integers in milliseconds.
* A form draft as handed to the zod resolver may have any subset of its
  fields undefined, hence every field of `Draft` is an `Option`.
* A zod issue is a path together with a human-readable message
  (`Issue`).  Each field parser returns the pair of its abort flag and
  its issue list: in zod, a failed type test (missing required field,
  `z.instanceof` with its fatal custom check) aborts, while failed
  `.min` / `.max` / `.regex` / `.refine` checks only mark the result
  dirty and accumulate issues.  The object-level `.superRefine` runs
  exactly when no field aborted.
* `URL.createObjectURL` is modelled as a pure function of the file.
-/

/-- Model of a JavaScript `File`: name, MIME type, size in bytes. -/
structure JFile where
  name : String
  type : String
  size : Nat
deriving Repr, DecidableEq

/-- A zod validation issue: field path plus message (array indices are
rendered as decimal strings in the path). -/
structure Issue where
  path : List String
  message : String
deriving Repr, DecidableEq

/-! ### String primitives

JavaScript string operations, modelled on the character list of the
Lean string so that they evaluate inside the kernel.  JavaScript
`length` counts UTF-16 units and `toLowerCase` is Unicode-aware; on the
code points these checks ever distinguish (ASCII) the models below
agree with them. -/

/-- JavaScript `s.length`. -/
def strLen (s : String) : Nat := s.data.length

/-- JavaScript `s.toLowerCase()` (the `.toLowerCase()` zod transform). -/
def strToLower (s : String) : String := ⟨s.data.map Char.toLower⟩

/-- JavaScript `s.indexOf(c) !== -1`. -/
def strContainsChar (s : String) (c : Char) : Bool := s.data.contains c

/-- JavaScript `s.startsWith(pre)`. -/
def strStartsWith (s pre : String) : Bool := pre.data.isPrefixOf s.data

/-! ### A small regular-expression engine (for the phone pattern)

The phone field uses the JavaScript regex
`^([+]?[\s0-9]+)?(\d{3}|[(]?[0-9]+[)])?([-]?[\s]?[0-9])+$`.
It has no captures, backreferences or lazy quantifiers, so
`regex.test s` is plain language membership, computed here with
Brzozowski derivatives. -/

/-- Regular expressions over characters; `cls p` matches one character
satisfying `p`, and the empty language is `cls (fun _ => false)`. -/
inductive RE where
  | eps : RE
  | cls : (Char → Bool) → RE
  | cat : RE → RE → RE
  | alt : RE → RE → RE
  | star : RE → RE

/-- Does the regex accept the empty string? -/
def RE.nullable : RE → Bool
  | .eps => true
  | .cls _ => false
  | .cat a b => a.nullable && b.nullable
  | .alt a b => a.nullable || b.nullable
  | .star _ => true

/-- Brzozowski derivative with respect to one character. -/
def RE.deriv : RE → Char → RE
  | .eps, _ => .cls (fun _ => false)
  | .cls p, c => if p c then .eps else .cls (fun _ => false)
  | .cat a b, c =>
      if a.nullable then .alt (.cat (a.deriv c) b) (b.deriv c)
      else .cat (a.deriv c) b
  | .alt a b, c => .alt (a.deriv c) (b.deriv c)
  | .star a, c => .cat (a.deriv c) (.star a)

/-- Full match of a character list. -/
def RE.matchList : RE → List Char → Bool
  | r, [] => r.nullable
  | r, c :: cs => (r.deriv c).matchList cs

/-- Full (anchored) match of a string, that is `regex.test s` for an
anchored `^...$` pattern. -/
def RE.test (r : RE) (s : String) : Bool := r.matchList s.data

/-- `r?` -/
def RE.opt (r : RE) : RE := .alt .eps r

/-- `r+` -/
def RE.plus (r : RE) : RE := .cat r (.star r)

/-- A single literal character. -/
def RE.chr (c : Char) : RE := .cls (fun x => x = c)

/-- The character class `\s` of JavaScript regexes (WhiteSpace plus
LineTerminator code points). -/
def isJsSpace (c : Char) : Bool :=
  c = '\t' || c = '\n' || c = Char.ofNat 11 || c = Char.ofNat 12 ||
  c = '\r' || c = ' ' || c = Char.ofNat 0xa0 || c = Char.ofNat 0x1680 ||
  (Char.ofNat 0x2000 ≤ c && c ≤ Char.ofNat 0x200a) ||
  c = Char.ofNat 0x2028 || c = Char.ofNat 0x2029 ||
  c = Char.ofNat 0x202f || c = Char.ofNat 0x205f ||
  c = Char.ofNat 0x3000 || c = Char.ofNat 0xfeff

/-- The class `[0-9]` (and `\d`, which coincides with it). -/
def reDigit : RE := .cls Char.isDigit

/-- `phoneRegex = /^([+]?[\s0-9]+)?(\d{3}|[(]?[0-9]+[)])?([-]?[\s]?[0-9])+$/`
from `App.tsx`. -/
def phoneRE : RE :=
  .cat
    (RE.opt (.cat (RE.opt (RE.chr '+'))
      (RE.plus (.cls (fun c => isJsSpace c || c.isDigit)))))
    (.cat
      (RE.opt (.alt (.cat reDigit (.cat reDigit reDigit))
        (.cat (RE.opt (RE.chr '(')) (.cat (RE.plus reDigit) (RE.chr ')')))))
      (RE.plus (.cat (RE.opt (RE.chr '-'))
        (.cat (RE.opt (.cls isJsSpace)) reDigit))))

/-- `phoneRegex.test s`. -/
def phoneRegexTest (s : String) : Bool := phoneRE.test s

/-! ### Per-field parsers of `formSchema`

Each returns `(aborted, issues)`. -/

/-- `name: z.string().min(1, { message: 'Required' })`.  A missing
required field is a zod `invalid_type` issue whose default message is
"Required" and it aborts; an empty string only fails the `.min(1)`
check. -/
def nameChecks : Option String → Bool × List Issue
  | none => (true, [⟨["name"], "Required"⟩])
  | some s =>
      (false, if strLen s < 1 then [⟨["name"], "Required"⟩] else [])

/-- `age: z.number().min(10, { message: 'Must be at least 10 years old' })`.
Note there is no `.int()` check. -/
def ageChecks : Option ℚ → Bool × List Issue
  | none => (true, [⟨["age"], "Required"⟩])
  | some a =>
      (false, if a < 10 then [⟨["age"], "Must be at least 10 years old"⟩] else [])

/-- `phone: z.string().regex(phoneRegex, 'Invalid').optional().or(z.literal(''))`.
The union tries the optional regex-checked branch first (dirty when the
regex fails), then the literal `''` branch; a dirty first branch is
returned with its issues only when the literal branch also fails. -/
def phoneChecks : Option String → Bool × List Issue
  | none => (false, [])
  | some s =>
      (false,
        if phoneRegexTest s then []
        else if s = "" then []
        else [⟨["phone"], "Invalid"⟩])

/-- `website: z.string().toLowerCase().min(5, ...).refine(v => v.indexOf('.') !== -1, ...).optional().or(z.literal(''))`.
The `.toLowerCase()` transform applies before the checks; `.min(5)` and
the dot refinement both report (the string result is dirty, not
aborted); the `.or(z.literal(''))` branch accepts the exact empty
string. -/
def websiteChecks : Option String → Bool × List Issue
  | none => (false, [])
  | some s =>
      (false,
        let t := strToLower s
        let issues :=
          (if strLen t < 5 then
            [⟨["website"], "Must be a minimum of 5 characters"⟩] else [])
          ++ (if !strContainsChar t '.' then [⟨["website"], "Invalid"⟩] else [])
        if issues.isEmpty then []
        else if s = "" then []
        else issues)

/-- `dateOfBirth: z.date().max(new Date(Date.now() - 10 * 365 * 24 * 60 * 60 * 1000), ...)`.
`schemaNow` is the `Date.now()` value captured when the schema was
created (module evaluation); the cutoff is ten 365-day years before it.
A missing date aborts with the default "Required" message. -/
def dateOfBirthChecks (schemaNow : Int) : Option Int → Bool × List Issue
  | none => (true, [⟨["dateOfBirth"], "Required"⟩])
  | some d =>
      (false,
        if d > schemaNow - 10 * 365 * 24 * 60 * 60 * 1000 then
          [⟨["dateOfBirth"], "Must be at least 10 years old"⟩]
        else [])

/-- `avatar: z.instanceof(File, { message: 'Required' }).refine(f => f.type.startsWith('image/'), ...).refine(f => f.size <= 5 * 1024 * 1024, ...)`.
A missing value fails the fatal `instanceof` custom check and aborts;
both refinements run on a `File` and can each add an issue, in order. -/
def avatarChecks : Option JFile → Bool × List Issue
  | none => (true, [⟨["avatar"], "Required"⟩])
  | some f =>
      (false,
        (if !strStartsWith f.type "image/" then
          [⟨["avatar"], "Invalid file type"⟩] else [])
        ++ (if f.size > 5 * 1024 * 1024 then
          [⟨["avatar"], "Image size must be less than 5MB"⟩] else []))

/-- Element schema of `additionalPictures`: `z.instanceof(File).refine(f => f.type.startsWith('image/'), ...).refine(f => f.size <= 50 * 1024 * 1024, ...)`,
at array index `i`. -/
def pictureChecks (i : Nat) (f : JFile) : List Issue :=
  (if !strStartsWith f.type "image/" then
    [⟨["additionalPictures", toString i], "Invalid file type"⟩] else [])
  ++ (if f.size > 50 * 1024 * 1024 then
    [⟨["additionalPictures", toString i], "Image size must be less than 50MB"⟩] else [])

/-- Issues of the array elements, parsed left to right starting at
index `i`. -/
def picturesElementIssues : Nat → List JFile → List Issue
  | _, [] => []
  | i, f :: fs => pictureChecks i f ++ picturesElementIssues (i + 1) fs

/-- `additionalPictures: z.array(...).max(5, { message: 'Maximum 5 images allowed' }).optional()`.
zod evaluates the array-level `.max` check before the element parses,
so the max-count issue precedes element issues. -/
def additionalPicturesChecks : Option (List JFile) → Bool × List Issue
  | none => (false, [])
  | some fs =>
      (false,
        (if fs.length > 5 then
          [⟨["additionalPictures"], "Maximum 5 images allowed"⟩] else [])
        ++ picturesElementIssues 0 fs)

/-! ### The whole draft and `formSchema` -/

/-- A form draft as handed to the zod resolver: every field may still be
undefined.  `dateOfBirth` is the `getTime()` value of the date in
milliseconds. -/
structure Draft where
  name : Option String
  age : Option ℚ
  phone : Option String
  website : Option String
  dateOfBirth : Option Int
  avatar : Option JFile
  additionalPictures : Option (List JFile)
deriving Repr, DecidableEq

/-- `Math.floor((Date.now() - new Date(dateOfBirth).getTime()) / (1000 * 60 * 60 * 24 * 365))`
from the `.superRefine` callback (floor division by a 365-day year in
milliseconds). -/
def calculatedAge (now dob : Int) : Int :=
  Int.fdiv (now - dob) (1000 * 60 * 60 * 24 * 365)

/-- The `.superRefine` callback: when both `age` and `dateOfBirth` are
defined and the age differs from the computed one, add a custom issue
on the `age` path.  `now` is `Date.now()` at validation time. -/
def superRefineIssues (now : Int) (age : Option ℚ) (dateOfBirth : Option Int) :
    List Issue :=
  match age, dateOfBirth with
  | some a, some d =>
      if a ≠ ((calculatedAge now d : Int) : ℚ) then
        [⟨["age"], "Age must match date of birth"⟩]
      else []
  | _, _ => []

/-- Issues of the object-level parse, fields in shape order. -/
def objectIssues (schemaNow : Int) (d : Draft) : List Issue :=
  (nameChecks d.name).2 ++ (ageChecks d.age).2 ++ (phoneChecks d.phone).2 ++
  (websiteChecks d.website).2 ++ (dateOfBirthChecks schemaNow d.dateOfBirth).2 ++
  (avatarChecks d.avatar).2 ++ (additionalPicturesChecks d.additionalPictures).2

/-- Did the object-level parse abort (some field result was fatally
invalid)?  zod skips `.superRefine` exactly in that case. -/
def objectAborted (schemaNow : Int) (d : Draft) : Bool :=
  (nameChecks d.name).1 || (ageChecks d.age).1 || (phoneChecks d.phone).1 ||
  (websiteChecks d.website).1 || (dateOfBirthChecks schemaNow d.dateOfBirth).1 ||
  (avatarChecks d.avatar).1 || (additionalPicturesChecks d.additionalPictures).1

/-- `formSchema.safeParse` on a draft, as the ordered list of issues it
reports.  `schemaNow` is `Date.now()` at schema creation (it fixes the
date-of-birth cutoff), `now` is `Date.now()` at validation time (used
by `.superRefine`).  The draft is valid exactly when the list is
empty. -/
def validateForm (schemaNow now : Int) (d : Draft) : List Issue :=
  if objectAborted schemaNow d then objectIssues schemaNow d
  else objectIssues schemaNow d ++ superRefineIssues now d.age d.dateOfBirth

/-! ### The file-input change handlers -/

/-- `URL.createObjectURL`, modelled as a pure function of the file (the
claims only distinguish an unchanged preview from a freshly created
one). -/
def createObjectURL (f : JFile) : String := "blob:" ++ f.name

/-- State touched by the avatar change handler: the validated form
value of `avatar` and the `avatarPreview` react state. -/
structure AvatarHandlerState where
  value : Option JFile
  avatarPreview : Option String
deriving Repr, DecidableEq

/-- The avatar `onChange` handler (`App.tsx` lines 116-122).
`files = none` models `e.target.files === null`.  `e.target.files[0]`
on an empty list is `undefined`; the handler then calls
`onChange(undefined)` and crashes on `file.type`, modelled as
`Except.error "TypeError"`. -/
def avatarOnChange (files : Option (List JFile)) (s : AvatarHandlerState) :
    Except String AvatarHandlerState :=
  match files with
  | none => .ok s
  | some fs =>
      let file := fs.head?
      let s := { s with value := file }
      match file with
      | none => .error "TypeError"
      | some f =>
          if !strStartsWith f.type "image/" then .ok s
          else .ok { s with avatarPreview := some (createObjectURL f) }

/-- State touched by the additional-pictures change handler. -/
structure PicturesHandlerState where
  value : Option (List JFile)
  additionalPicturesPreviews : Option (List String)
deriving Repr, DecidableEq

/-- The additionalPictures `onChange` handler (`App.tsx` lines
138-148).  `Array.from` of an empty selection gives `[]`, and
`files.length ? ... : undefined` then stores `undefined`. -/
def additionalPicturesOnChange (files : Option (List JFile))
    (s : PicturesHandlerState) : PicturesHandlerState :=
  match files with
  | none => s
  | some fs =>
      let s := { s with value := some fs }
      if !fs.all (fun f => strStartsWith f.type "image/") then s
      else { s with additionalPicturesPreviews :=
        if fs.length ≠ 0 then some (fs.map createObjectURL) else none }

/-! ### Helper lemmas -/

/-- The phone field parser never aborts: its union falls back to a
dirty result or a literal match, never to a fatal type error. -/
theorem phoneChecks_fst (x : Option String) : (phoneChecks x).1 = false := by
  cases x <;> rfl

/-- The website field parser never aborts. -/
theorem websiteChecks_fst (x : Option String) : (websiteChecks x).1 = false := by
  cases x <;> rfl

/-- The additional-pictures field parser never aborts on typed input. -/
theorem additionalPicturesChecks_fst (x : Option (List JFile)) :
    (additionalPicturesChecks x).1 = false := by
  cases x <;> rfl

/-- Valid image files of admissible size produce no element issues. -/
theorem picturesElementIssues_eq_nil :
    ∀ fs : List JFile,
      (∀ f ∈ fs, strStartsWith f.type "image/" = true ∧ f.size ≤ 50 * 1024 * 1024) →
      ∀ i, picturesElementIssues i fs = []
  | [], _, _ => rfl
  | f :: fs, h, i => by
      have hf := h f (List.mem_cons_self f fs)
      have htail := picturesElementIssues_eq_nil fs
        (fun g hg => h g (List.mem_cons_of_mem f hg)) (i + 1)
      simp [picturesElementIssues, pictureChecks, hf.1, Nat.not_lt.mpr hf.2, htail]

/-- Sample image file used by concrete witnesses. -/
def sampleImage : JFile := ⟨"a.png", "image/png", 1000⟩

/-- Sample non-image file used by concrete witnesses. -/
def textFile : JFile := ⟨"notes.txt", "text/plain", 12⟩

/-- The rational 21/2 = 10.5, built by the raw constructor so that the
kernel can evaluate with it. -/
def halfTwentyOne : ℚ := ⟨21, 2, by decide, by decide⟩

/-- 21/2 written as a division. -/
theorem halfTwentyOne_eq_div : halfTwentyOne = 21 / 2 := by
  unfold halfTwentyOne
  rw [Rat.mk'_eq_divInt, Rat.divInt_eq_div]
  norm_num

/-! ### Claim theorems -/

/-- C1 (counterexample): a draft in which age (30) and dateOfBirth
(epoch 0) are both set and the age does not equal the computed one, but
the avatar is missing.  Validation fails only with the avatar issue:
the fatal `instanceof` failure aborts the object parse, `.superRefine`
never runs, and no "Age must match date of birth" issue is attached to
the age field — contradicting the claim as stated. -/
theorem ageMismatch_not_reported_when_avatar_missing :
    (⟨some "John", some 30, none, none, some 0, none, none⟩ : Draft).age = some 30
    ∧ (⟨some "John", some 30, none, none, some 0, none, none⟩ : Draft).dateOfBirth = some 0
    ∧ (30 : ℚ) ≠ ((calculatedAge 1000000000000 0 : Int) : ℚ)
    ∧ validateForm 1000000000000 1000000000000
        ⟨some "John", some 30, none, none, some 0, none, none⟩
        = [⟨["avatar"], "Required"⟩]
    ∧ (⟨["age"], "Age must match date of birth"⟩ : Issue)
        ∉ validateForm 1000000000000 1000000000000
            ⟨some "John", some 30, none, none, some 0, none, none⟩ :=
  ⟨rfl, rfl, by decide, by decide, by decide⟩

/-- C1 (amended): for every draft in which age and dateOfBirth are both
set and the rest of the object parses — name is a string and avatar is
a File, the only other fields whose absence aborts — if age differs
from `Math.floor((now - dateOfBirth) / (1000*60*60*24*365))` then
validation fails with "Age must match date of birth" attached to the
age field, and if age equals that value the cross-field check adds no
issue. -/
theorem ageMismatch_reported_when_object_parses
    (schemaNow now : Int) (d : Draft) (nm : String) (f : JFile) (a : ℚ) (dob : Int)
    (hn : d.name = some nm) (hf : d.avatar = some f)
    (ha : d.age = some a) (hd : d.dateOfBirth = some dob) :
    (a ≠ ((calculatedAge now dob : Int) : ℚ) →
      (⟨["age"], "Age must match date of birth"⟩ : Issue) ∈ validateForm schemaNow now d
      ∧ validateForm schemaNow now d ≠ [])
    ∧ (a = ((calculatedAge now dob : Int) : ℚ) →
      superRefineIssues now d.age d.dateOfBirth = []) := by
  constructor
  · intro hne
    have hab : objectAborted schemaNow d = false := by
      unfold objectAborted
      rw [hn, hf, ha, hd]
      simp [nameChecks, ageChecks, dateOfBirthChecks, avatarChecks,
        phoneChecks_fst, websiteChecks_fst, additionalPicturesChecks_fst]
    have hsr : (⟨["age"], "Age must match date of birth"⟩ : Issue)
        ∈ superRefineIssues now d.age d.dateOfBirth := by
      rw [ha, hd]
      simp [superRefineIssues, hne]
    have hv : (⟨["age"], "Age must match date of birth"⟩ : Issue)
        ∈ validateForm schemaNow now d := by
      unfold validateForm
      rw [hab]
      simp only [Bool.false_eq_true, if_false]
      exact List.mem_append_right _ hsr
    exact ⟨hv, List.ne_nil_of_mem hv⟩
  · intro heq
    rw [ha, hd]
    simp [superRefineIssues, heq]

/-- C1 (witness): a fully typed draft with age 30 against a birth date
that computes to age 31 gets the mismatch issue on the age field. -/
theorem ageMismatch_reported_witness :
    (⟨["age"], "Age must match date of birth"⟩ : Issue)
      ∈ validateForm 1000000000000 1000000000000
          ⟨some "John", some 30, none, none, some 0, some sampleImage, none⟩ :=
  ((ageMismatch_reported_when_object_parses 1000000000000 1000000000000
      _ "John" sampleImage 30 0 rfl rfl rfl rfl).1 (by decide)).1

/-- C2 (counterexample): the age 10.5 = 21/2 is not an integer (its
reduced denominator is 2 and it equals no integer cast), yet the age
field schema `z.number().min(10)` reports no issue on it, and a draft
carrying it (with dateOfBirth absent) has no issue attached to the age
path at all — contradicting "the age field passes validation only if
it is an integer". -/
theorem nonInteger_age_passes_age_checks :
    halfTwentyOne.den ≠ 1
    ∧ (¬ ∃ n : ℤ, halfTwentyOne = (n : ℚ))
    ∧ (ageChecks (some halfTwentyOne)).2 = []
    ∧ validateForm 1000000000000 1000000000000
        ⟨some "John", some halfTwentyOne, none, none, none, some sampleImage, none⟩
        = [⟨["dateOfBirth"], "Required"⟩] := by
  refine ⟨by decide, ?_, by decide, by decide⟩
  rintro ⟨n, hn⟩
  have hd := congrArg Rat.den hn
  rw [Rat.den_intCast] at hd
  exact absurd hd (by decide)

/-- C2 (amended): the age field schema has no integrality check: it
passes exactly the numbers that are at least 10 (so non-integers such
as 10.5 pass the field check; integrality is only enforced indirectly
by the cross-field check when dateOfBirth is present and the object
parses), and a number below 10 fails it with the minimum message. -/
theorem ageChecks_pass_iff_ge_ten (a : ℚ) :
    ((ageChecks (some a)).2 = [] ↔ 10 ≤ a)
    ∧ (a < 10 →
        (ageChecks (some a)).2 = [⟨["age"], "Must be at least 10 years old"⟩]) := by
  constructor
  · rcases lt_or_le a 10 with h | h
    · simp [ageChecks, h, not_le.mpr h]
    · simp [ageChecks, not_lt.mpr h, h]
  · intro h
    simp [ageChecks, h]

/-- C2 (witness): 9 is below 10 and fails the age field check. -/
theorem ageChecks_below_ten_witness :
    (ageChecks (some 9)).2 = [⟨["age"], "Must be at least 10 years old"⟩] :=
  (ageChecks_pass_iff_ge_ten 9).2 (by norm_num)

/-- C3: the dateOfBirth field check passes exactly when the date is at
most `Date.now() - 10 * 365 * 24 * 60 * 60 * 1000` (ten 365-day years
before the time captured when the schema was created), and a later date
fails with "Must be at least 10 years old". -/
theorem dateOfBirthChecks_pass_iff_ten_years_before (schemaNow d : Int) :
    ((dateOfBirthChecks schemaNow (some d)).2 = []
      ↔ d ≤ schemaNow - 10 * 365 * 24 * 60 * 60 * 1000)
    ∧ (schemaNow - 10 * 365 * 24 * 60 * 60 * 1000 < d →
        (dateOfBirthChecks schemaNow (some d)).2
          = [⟨["dateOfBirth"], "Must be at least 10 years old"⟩]) := by
  constructor
  · rcases le_or_lt d (schemaNow - 10 * 365 * 24 * 60 * 60 * 1000) with h | h
    · simp [dateOfBirthChecks, not_lt.mpr h, h]
    · simp [dateOfBirthChecks, h, not_le.mpr h]
  · intro h
    have h' : schemaNow - 315360000000 < d := by omega
    simp [dateOfBirthChecks, h']

/-- C3 (witness): with the schema created at epoch 0, the date 1ms is
less than ten years before it and fails with the message. -/
theorem dateOfBirthChecks_witness :
    (dateOfBirthChecks 0 (some 1)).2
      = [⟨["dateOfBirth"], "Must be at least 10 years old"⟩] :=
  (dateOfBirthChecks_pass_iff_ten_years_before 0 1).2 (by decide)

/-- C4: for every avatar file, a non-image MIME type makes the first
issue "Invalid file type" (it precedes any size issue, so the type
check takes priority and the field fails); an image file over 5MB
fails with exactly the size message; an image file of at most 5MB
passes. -/
theorem avatarChecks_type_and_size (f : JFile) :
    (strStartsWith f.type "image/" = false →
      (avatarChecks (some f)).2.head? = some ⟨["avatar"], "Invalid file type"⟩
      ∧ (avatarChecks (some f)).2 ≠ [])
    ∧ (strStartsWith f.type "image/" = true →
        (5 * 1024 * 1024 < f.size →
          (avatarChecks (some f)).2 = [⟨["avatar"], "Image size must be less than 5MB"⟩])
        ∧ (f.size ≤ 5 * 1024 * 1024 → (avatarChecks (some f)).2 = [])) := by
  refine ⟨fun h => ⟨?_, ?_⟩, fun h => ⟨fun hs => ?_, fun hs => ?_⟩⟩
  · simp [avatarChecks, h]
  · simp [avatarChecks, h]
  · simp [avatarChecks, h, hs]
  · simp [avatarChecks, h, Nat.not_lt.mpr hs]

/-- C4 (witness): a 12-byte text file fails on the type check first; a
6MB image file fails on the size check; the 1000-byte sample image
passes. -/
theorem avatarChecks_witness :
    (avatarChecks (some textFile)).2.head? = some ⟨["avatar"], "Invalid file type"⟩
    ∧ (avatarChecks (some ⟨"big.png", "image/png", 6 * 1024 * 1024⟩)).2
        = [⟨["avatar"], "Image size must be less than 5MB"⟩]
    ∧ (avatarChecks (some sampleImage)).2 = [] :=
  ⟨((avatarChecks_type_and_size textFile).1 (by decide)).1,
   ((avatarChecks_type_and_size ⟨"big.png", "image/png", 6 * 1024 * 1024⟩).2
      (by decide)).1 (by decide),
   ((avatarChecks_type_and_size sampleImage).2 (by decide)).2 (by decide)⟩

/-- C5: for every list of image files each of size at most 50MB, a list
of 6 files fails the additionalPictures field with exactly the
max-count message "Maximum 5 images allowed", and a list of at most 5
files passes. -/
theorem additionalPictures_count_bound (fs : List JFile)
    (h : ∀ f ∈ fs, strStartsWith f.type "image/" = true ∧ f.size ≤ 50 * 1024 * 1024) :
    (fs.length = 6 →
      (additionalPicturesChecks (some fs)).2
        = [⟨["additionalPictures"], "Maximum 5 images allowed"⟩])
    ∧ (fs.length ≤ 5 → (additionalPicturesChecks (some fs)).2 = []) := by
  have he := picturesElementIssues_eq_nil fs h 0
  constructor
  · intro hl
    simp [additionalPicturesChecks, he, hl]
  · intro hl
    simp [additionalPicturesChecks, he, Nat.not_lt.mpr hl]

/-- C5 (witness): six copies of the sample image fail with the
max-count message; two copies pass. -/
theorem additionalPictures_count_bound_witness :
    (additionalPicturesChecks (some (List.replicate 6 sampleImage))).2
      = [⟨["additionalPictures"], "Maximum 5 images allowed"⟩]
    ∧ (additionalPicturesChecks (some (List.replicate 2 sampleImage))).2 = [] :=
  ⟨(additionalPictures_count_bound (List.replicate 6 sampleImage) (by decide)).1 (by decide),
   (additionalPictures_count_bound (List.replicate 2 sampleImage) (by decide)).2 (by decide)⟩

/-- C6: the empty website string passes (the `.or(z.literal(''))`
branch treats it as absent); "ab" fails with the too-short message
first; "abcde" fails with the dot-refinement message "Invalid";
"abc.de" passes. -/
theorem websiteChecks_concrete_cases :
    websiteChecks (some "") = (false, [])
    ∧ (websiteChecks (some "ab")).2.head?
        = some ⟨["website"], "Must be a minimum of 5 characters"⟩
    ∧ (websiteChecks (some "ab")).2 ≠ []
    ∧ websiteChecks (some "abcde") = (false, [⟨["website"], "Invalid"⟩])
    ∧ websiteChecks (some "abc.de") = (false, []) :=
  ⟨by decide, by decide, by decide, by decide, by decide⟩

/-- C7: for every draft in which name is missing or the empty string,
validation fails and a "Required" issue is attached to the name
field. -/
theorem name_missing_or_empty_required (schemaNow now : Int) (d : Draft)
    (h : d.name = none ∨ d.name = some "") :
    (⟨["name"], "Required"⟩ : Issue) ∈ validateForm schemaNow now d
    ∧ validateForm schemaNow now d ≠ [] := by
  have hmem : (⟨["name"], "Required"⟩ : Issue) ∈ (nameChecks d.name).2 := by
    rcases h with h | h <;> rw [h] <;> decide
  have hobj : (⟨["name"], "Required"⟩ : Issue) ∈ objectIssues schemaNow d := by
    unfold objectIssues
    exact List.mem_append_left _ (List.mem_append_left _ (List.mem_append_left _
      (List.mem_append_left _ (List.mem_append_left _ (List.mem_append_left _ hmem)))))
  have hval : (⟨["name"], "Required"⟩ : Issue) ∈ validateForm schemaNow now d := by
    unfold validateForm
    split
    · exact hobj
    · exact List.mem_append_left _ hobj
  exact ⟨hval, List.ne_nil_of_mem hval⟩

/-- C7 (witness): the empty draft gets the "Required" issue on name. -/
theorem name_missing_required_witness :
    (⟨["name"], "Required"⟩ : Issue)
      ∈ validateForm 0 0 ⟨none, none, none, none, none, none, none⟩ :=
  (name_missing_or_empty_required 0 0 _ (Or.inl rfl)).1

/-- C8: selecting a non-empty file list whose first file is not an
image updates the validated avatar value to that file and leaves the
avatar preview exactly as it was. -/
theorem avatar_nonimage_updates_value_keeps_preview
    (f : JFile) (rest : List JFile) (s : AvatarHandlerState)
    (h : strStartsWith f.type "image/" = false) :
    avatarOnChange (some (f :: rest)) s = .ok ⟨some f, s.avatarPreview⟩ := by
  cases s
  simp [avatarOnChange, h]

/-- C8 (witness): selecting a text file keeps the previous preview
URL while the form value becomes the text file. -/
theorem avatar_nonimage_witness :
    avatarOnChange (some [textFile]) ⟨none, some "blob:old.png"⟩
      = .ok ⟨some textFile, some "blob:old.png"⟩ :=
  avatar_nonimage_updates_value_keeps_preview textFile [] ⟨none, some "blob:old.png"⟩
    (by decide)

/-- C9 (code bug): on a change event whose files list is non-null but
empty, `e.target.files[0]` is undefined; the handler still calls
`onChange(undefined)` and then throws a TypeError reading `file.type`
(the `file ? ... : undefined` guard on the next source line never
runs), so it does not complete without error. -/
theorem avatarOnChange_empty_files_crashes :
    avatarOnChange (some []) ⟨none, some "blob:old.png"⟩ = .error "TypeError" := rfl

/-- C10: on a change event whose files list is null, both handlers
return immediately: neither the validated value nor any preview state
changes. -/
theorem null_files_handlers_noop (s : AvatarHandlerState) (t : PicturesHandlerState) :
    avatarOnChange none s = .ok s ∧ additionalPicturesOnChange none t = t :=
  ⟨rfl, rfl⟩
